import Mathlib

/-!
Shallow embedding of the data-aggregation pipeline of `src/appp.py`
(a Dash dashboard over a tabular climate dataset), together with proofs
of the specified properties of its aggregation functions.

Modelling conventions:
* a pandas DataFrame row becomes an `Observation`; the whole frame a
  `List Observation` kept in row order;
* the `index` column (parsed to `datetime` by `load_data`) becomes a
  `Date` record; `strftime "%B"` becomes `strftimeB`;
* float columns (`tempMax`, `tempMed`, `tempMin`, `Lat`, `Long`) are
  modelled as rationals, so means are exact;
* `df[mask]` becomes `List.filter`, `groupby(ks).size()` /
  `groupby(ks)[c].mean()` become a pass over the sorted deduplicated
  key list (pandas `groupby` sorts its keys ascending), and the
  `(cidade, year)` key gets the lexicographic order `String ×ₗ Int`,
  matching pandas' sort by city then year.
-/

namespace Appp

/-- Calendar date, the result of `pd.to_datetime` on the `index` column.
`month` is a bare `Nat` so that the behaviour of the month-name lookup on
out-of-range values can be stated; a real `datetime` always has
`1 ≤ month ≤ 12`. -/
structure Date where
  year : Int
  month : Nat
  day : Nat
deriving DecidableEq, Repr

/-- One row of the climate DataFrame, with the columns `appp.py` reads:
`cidade`, `index` (here `date`), `year`, `tempMax`, `tempMed`, `tempMin`,
`isHW`, `Lat`, `Long`. -/
structure Observation where
  cidade : String
  date : Date
  year : Int
  tempMax : ℚ
  tempMed : ℚ
  tempMin : ℚ
  isHW : String
  lat : ℚ
  long : ℚ
deriving DecidableEq, Repr

/-- Python's `str.upper`, modelled as per-character uppercasing of the
string's characters. -/
def strUpper (s : String) : String :=
  String.mk (s.data.map Char.toUpper)

/-- Per-row normalisation done by `load_data` (line 26 of `appp.py`):
`df["isHW"] = df["isHW"].apply(lambda x: str(x).upper())`. The `index`
column is already a `Date` in this model. -/
def load_row (o : Observation) : Observation :=
  { o with isHW := strUpper o.isHW }

/-- The loader `load_data` (lines 23-27): reads the frame and normalises
the `isHW` column to upper case. -/
def load_data (rows : List Observation) : List Observation :=
  rows.map load_row

/-- The heat-wave filter `df["isHW"] == "TRUE"` used verbatim by
`calculate_hw_summary` (line 37) and `calculate_hw_monthly` (line 57). -/
def hwFlagIsTrue (o : Observation) : Bool :=
  decide (o.isHW = "TRUE")

/-- Sorted list of the distinct elements of `l`: the key list produced by
pandas `groupby` (which sorts its group keys ascending). -/
def sortedDedup {α : Type} [LinearOrder α] [DecidableEq α] (l : List α) : List α :=
  l.dedup.insertionSort (· ≤ ·)

/-- Rows of `df` with `isHW == "TRUE"`: the frame `df_hw` of
`calculate_hw_summary` (line 37). -/
def hwRows (df : List Observation) : List Observation :=
  df.filter hwFlagIsTrue

/-- `calculate_hw_summary` (lines 36-39): filter to heat-wave rows, group
by `(cidade, year)`, count rows per group. Keys carry the lexicographic
order, as pandas sorts group keys by city then year. -/
def calculate_hw_summary (df : List Observation) : List ((String ×ₗ Int) × Nat) :=
  (sortedDedup ((hwRows df).map fun o => toLex (o.cidade, o.year))).map
    fun k => (k, (hwRows df).countP fun o => decide (toLex (o.cidade, o.year) = k))

/-- Mean of a list of rationals; `List ℚ` models a pandas float column. -/
def mean (xs : List ℚ) : ℚ :=
  xs.sum / xs.length

/-- The selection `df[df["cidade"] == cidade]` used twice by
`calculate_anomalies` (lines 46-47). -/
def cityRows (df : List Observation) (cidade : String) : List Observation :=
  df.filter fun o => decide (o.cidade = cidade)

/-- `calculate_anomalies` (lines 45-49): baseline mean of `tempMed` over
all of the city's rows, per-year mean of `tempMed` (pandas sorts the
years ascending), anomaly is their difference. Row format:
`(year, tempMed, anomalia)`. -/
def calculate_anomalies (df : List Observation) (cidade : String) : List (Int × ℚ × ℚ) :=
  (sortedDedup ((cityRows df cidade).map Observation.year)).map fun y =>
    (y,
     mean (((cityRows df cidade).filter fun o => decide (o.year = y)).map Observation.tempMed),
     mean (((cityRows df cidade).filter fun o => decide (o.year = y)).map Observation.tempMed)
       - mean ((cityRows df cidade).map Observation.tempMed))

/-- The month list of `calculate_hw_monthly` (lines 62-65). -/
def all_months : List String :=
  ["January", "February", "March", "April", "May", "June",
   "July", "August", "September", "October", "November", "December"]

/-- English month name for a month number, as produced by
`strftime "%B")` on a valid datetime; out-of-range numbers give a
non-canonical name. -/
def monthName : Nat → String
  | 1 => "January"
  | 2 => "February"
  | 3 => "March"
  | 4 => "April"
  | 5 => "May"
  | 6 => "June"
  | 7 => "July"
  | 8 => "August"
  | 9 => "September"
  | 10 => "October"
  | 11 => "November"
  | 12 => "December"
  | _ => ""

/-- `dff["index"].dt.strftime("%B")` (line 58): full month name of a date. -/
def strftimeB (d : Date) : String :=
  monthName d.month

/-- The filtered frame `dff` of `calculate_hw_monthly` (line 57):
`df[(df["cidade"] == cidade) & (df["year"] == ano) & (df["isHW"] == "TRUE")]`. -/
def hwMonthlyRows (df : List Observation) (cidade : String) (ano : Int) : List Observation :=
  df.filter fun o => decide (o.cidade = cidade) && decide (o.year = ano) && hwFlagIsTrue o

/-- `calculate_hw_monthly` (lines 56-70): count heat-wave rows per month
name, then left-merge onto the fixed 12-month list with `fillna 0` — one
row per canonical month, in calendar order; month names of `dff` that are
not canonical are dropped by the merge. -/
def calculate_hw_monthly (df : List Observation) (cidade : String) (ano : Int) :
    List (String × Nat) :=
  all_months.map fun m =>
    (m, (hwMonthlyRows df cidade ano).countP fun o => decide (strftimeB o.date = m))

/-- The data extraction of the `update_temp_plot` callback (line 162):
`dff = df[(df["cidade"] == cidade) & (df["year"] == ano)]`, handed
unsorted to the three scatter traces. The spec calls this `filterDaily`. -/
def filterDaily (df : List Observation) (cidade : String) (ano : Int) : List Observation :=
  df.filter fun o => decide (o.cidade = cidade) && decide (o.year = ano)

/-- The `update_polar_plot` callback (lines 191-213) invokes
`calculate_hw_monthly(df, cidade, ano)` directly; the figure around it is
presentation. No validation of `cidade` or `ano` happens first. -/
def update_polar_plot (df : List Observation) (cidade : String) (ano : Int) :
    List (String × Nat) :=
  calculate_hw_monthly df cidade ano

/-- Ascending order on dates (timestamps have no time of day here). -/
def dateLE (a b : Date) : Prop :=
  a.year < b.year ∨ (a.year = b.year ∧
    (a.month < b.month ∨ (a.month = b.month ∧ a.day ≤ b.day)))

instance : DecidableRel dateLE := fun a b =>
  inferInstanceAs (Decidable (a.year < b.year ∨ (a.year = b.year ∧
    (a.month < b.month ∨ (a.month = b.month ∧ a.day ≤ b.day)))))

/-- Concrete row: Recife, 2020-01-05, heat-wave day. -/
def obsJan5 : Observation :=
  ⟨"Recife", ⟨2020, 1, 5⟩, 2020, 31, 28, 24, "TRUE", -8, -35⟩

/-- Concrete row: Recife, 2020-01-09, heat-wave day. -/
def obsJan9 : Observation :=
  ⟨"Recife", ⟨2020, 1, 9⟩, 2020, 32, 29, 25, "TRUE", -8, -35⟩

/-- Concrete row: Recife, 2020-03-02, heat-wave day. -/
def obsMar2 : Observation :=
  ⟨"Recife", ⟨2020, 3, 2⟩, 2020, 33, 30, 26, "TRUE", -8, -35⟩

/-- Concrete row: Recife, 2020-05-07, not a heat-wave day. -/
def obsMay7 : Observation :=
  ⟨"Recife", ⟨2020, 5, 7⟩, 2020, 30, 27, 23, "FALSE", -8, -35⟩

/-- Concrete dataset used to instantiate the theorems: Recife 2020 with
heat-wave days on two January dates and one March date. -/
def exDf : List Observation :=
  [obsJan5, obsJan9, obsMar2, obsMay7]

/-- Concrete dataset whose rows are not in timestamp order. -/
def exDfUnsorted : List Observation :=
  [obsMar2, obsJan5]

theorem mem_sortedDedup {α : Type} [LinearOrder α] [DecidableEq α] {l : List α} {a : α} :
    a ∈ sortedDedup l ↔ a ∈ l := by
  unfold sortedDedup
  rw [List.mem_insertionSort, List.mem_dedup]

theorem nodup_sortedDedup {α : Type} [LinearOrder α] [DecidableEq α] (l : List α) :
    (sortedDedup l).Nodup :=
  (List.perm_insertionSort _ _).nodup_iff.mpr (List.nodup_dedup l)

theorem sorted_lt_sortedDedup {α : Type} [LinearOrder α] [DecidableEq α] (l : List α) :
    (sortedDedup l).Sorted (· < ·) :=
  (List.sorted_insertionSort _ _).lt_of_le (nodup_sortedDedup l)

theorem map_fst_hw_summary (df : List Observation) :
    (calculate_hw_summary df).map Prod.fst
      = sortedDedup ((hwRows df).map fun o => toLex (o.cidade, o.year)) := by
  have hcomp : (Prod.fst ∘ fun (k : String ×ₗ Int) =>
      (k, (hwRows df).countP fun o => decide (toLex (o.cidade, o.year) = k))) = id := rfl
  rw [calculate_hw_summary, List.map_map, hcomp, List.map_id]

/-- C5: `calculate_hw_summary` emits one row per (cidade, year) pair that
has at least one heat-wave row, keys pairwise distinct and sorted by city
then year, each count equal to the number of matching heat-wave rows of
the dataset, and no count is 0. -/
theorem C5_hw_summary_correct (df : List Observation) :
    ((calculate_hw_summary df).map Prod.fst).Sorted
      (fun a b => (ofLex a).1 < (ofLex b).1 ∨
        ((ofLex a).1 = (ofLex b).1 ∧ (ofLex a).2 < (ofLex b).2)) ∧
    ((calculate_hw_summary df).map Prod.fst).Nodup ∧
    (∀ c : String, ∀ y : Int,
      toLex (c, y) ∈ (calculate_hw_summary df).map Prod.fst ↔
        ∃ o ∈ df, o.isHW = "TRUE" ∧ o.cidade = c ∧ o.year = y) ∧
    (∀ p ∈ calculate_hw_summary df,
      p.2 = df.countP (fun o =>
        decide (o.isHW = "TRUE" ∧ o.cidade = (ofLex p.1).1 ∧ o.year = (ofLex p.1).2)) ∧
      p.2 ≠ 0) := by
  refine ⟨?_, ?_, ?_, ?_⟩
  · rw [map_fst_hw_summary]
    refine (sorted_lt_sortedDedup _).imp fun {a b} h => ?_
    exact (Prod.Lex.lt_iff (ofLex a) (ofLex b)).mp h
  · rw [map_fst_hw_summary]
    exact nodup_sortedDedup _
  · intro c y
    rw [map_fst_hw_summary]
    simp only [mem_sortedDedup, List.mem_map, hwRows, List.mem_filter, hwFlagIsTrue,
      decide_eq_true_eq]
    constructor
    · rintro ⟨o, ⟨ho, hflag⟩, hkey⟩
      have hpair : (o.cidade, o.year) = (c, y) := hkey
      exact ⟨o, ho, hflag, congrArg Prod.fst hpair, congrArg Prod.snd hpair⟩
    · rintro ⟨o, ho, hflag, hc, hy⟩
      exact ⟨o, ⟨ho, hflag⟩, by rw [hc, hy]⟩
  · intro p hp
    simp only [calculate_hw_summary, List.mem_map] at hp
    obtain ⟨k, hk, rfl⟩ := hp
    have hcnt : ((hwRows df).countP fun o => decide (toLex (o.cidade, o.year) = k))
        = df.countP (fun o =>
          decide (o.isHW = "TRUE" ∧ o.cidade = (ofLex k).1 ∧ o.year = (ofLex k).2)) := by
      rw [hwRows, List.countP_filter]
      refine List.countP_congr fun o _ => ?_
      simp only [Bool.and_eq_true, decide_eq_true_eq, hwFlagIsTrue]
      constructor
      · rintro ⟨hkey, hflag⟩
        have hpair : (o.cidade, o.year) = ofLex k := hkey
        exact ⟨hflag, congrArg Prod.fst hpair, congrArg Prod.snd hpair⟩
      · rintro ⟨hflag, hc, hy⟩
        refine ⟨?_, hflag⟩
        show (o.cidade, o.year) = ofLex k
        rw [hc, hy]
    refine ⟨hcnt, ?_⟩
    rw [mem_sortedDedup, List.mem_map] at hk
    obtain ⟨o, ho, hko⟩ := hk
    have hpos : 0 < (hwRows df).countP fun o => decide (toLex (o.cidade, o.year) = k) := by
      rw [List.countP_pos_iff]
      exact ⟨o, ho, by rw [hko]; exact decide_eq_true rfl⟩
    exact Nat.pos_iff_ne_zero.mp hpos

theorem map_fst_anomalies (df : List Observation) (cidade : String) :
    (calculate_anomalies df cidade).map Prod.fst
      = sortedDedup ((cityRows df cidade).map Observation.year) := by
  have hcomp : (Prod.fst ∘ fun (y : Int) =>
      (y,
       mean (((cityRows df cidade).filter fun o => decide (o.year = y)).map Observation.tempMed),
       mean (((cityRows df cidade).filter fun o => decide (o.year = y)).map Observation.tempMed)
         - mean ((cityRows df cidade).map Observation.tempMed))) = id := rfl
  rw [calculate_anomalies, List.map_map, hcomp, List.map_id]

theorem cityRows_filter_year (df : List Observation) (cidade : String) (y : Int) :
    ((cityRows df cidade).filter fun o => decide (o.year = y))
      = df.filter fun o => decide (o.cidade = cidade ∧ o.year = y) := by
  rw [cityRows, List.filter_filter]
  refine List.filter_congr fun o _ => ?_
  rw [← Bool.decide_and, decide_eq_decide]
  exact and_comm

/-- C6: for a city with at least one row, `calculate_anomalies` returns a
nonempty list with one row per year present for that city, years strictly
ascending, each row's mean being the mean `tempMed` of that city/year and
its anomaly that mean minus the city's all-years baseline; when the city
has a single year of data the anomaly is 0. -/
theorem C6_anomalies_correct (df : List Observation) (cidade : String)
    (h : ∃ o ∈ df, o.cidade = cidade) :
    calculate_anomalies df cidade ≠ [] ∧
    ((calculate_anomalies df cidade).map Prod.fst).Sorted (· < ·) ∧
    (∀ y : Int, y ∈ (calculate_anomalies df cidade).map Prod.fst ↔
      ∃ o ∈ df, o.cidade = cidade ∧ o.year = y) ∧
    (∀ p ∈ calculate_anomalies df cidade,
      p.2.1 = mean ((df.filter fun o =>
        decide (o.cidade = cidade ∧ o.year = p.1)).map Observation.tempMed) ∧
      p.2.2 = p.2.1
        - mean ((df.filter fun o => decide (o.cidade = cidade)).map Observation.tempMed)) ∧
    ((∀ o₁ ∈ df, ∀ o₂ ∈ df, o₁.cidade = cidade → o₂.cidade = cidade → o₁.year = o₂.year) →
      ∀ p ∈ calculate_anomalies df cidade, p.2.2 = 0) := by
  have hmem : ∀ y : Int, y ∈ (calculate_anomalies df cidade).map Prod.fst ↔
      ∃ o ∈ df, o.cidade = cidade ∧ o.year = y := by
    intro y
    rw [map_fst_anomalies]
    simp only [mem_sortedDedup, List.mem_map, cityRows, List.mem_filter, decide_eq_true_eq]
    constructor
    · rintro ⟨o, ⟨ho, hc⟩, hy⟩
      exact ⟨o, ho, hc, hy⟩
    · rintro ⟨o, ho, hc, hy⟩
      exact ⟨o, ⟨ho, hc⟩, hy⟩
  refine ⟨?_, ?_, hmem, ?_, ?_⟩
  · intro hnil
    obtain ⟨o, ho, hc⟩ := h
    have : o.year ∈ (calculate_anomalies df cidade).map Prod.fst :=
      (hmem o.year).mpr ⟨o, ho, hc, rfl⟩
    rw [hnil] at this
    simp at this
  · rw [map_fst_anomalies]
    exact sorted_lt_sortedDedup _
  · intro p hp
    simp only [calculate_anomalies, List.mem_map] at hp
    obtain ⟨y, hy, rfl⟩ := hp
    exact ⟨congrArg mean (congrArg (List.map Observation.tempMed) (cityRows_filter_year df cidade y)), rfl⟩
  · intro hone p hp
    simp only [calculate_anomalies, List.mem_map] at hp
    obtain ⟨y, hy, rfl⟩ := hp
    rw [mem_sortedDedup, List.mem_map] at hy
    obtain ⟨o₀, ho₀, hyo⟩ := hy
    have hall : ∀ o ∈ cityRows df cidade, (fun o => decide (o.year = y)) o = true := by
      intro o ho
      have h1 := List.mem_filter.mp ho
      have h2 := List.mem_filter.mp ho₀
      have heq : o.year = o₀.year :=
        hone o h1.1 o₀ h2.1 (of_decide_eq_true h1.2) (of_decide_eq_true h2.2)
      simp [heq, hyo]
    show mean _ - mean _ = 0
    rw [List.filter_eq_self.mpr hall]
    exact sub_self _

/-- C1 counterexample: "Fortaleza" has zero rows of `exDf`, yet
`calculate_anomalies` returns a result (the empty row list) instead of
failing: the Python body raises nothing on this path (the empty selection
gives a `NaN` baseline and an empty grouped frame), and no
`UnknownCityError` exists anywhere in `appp.py`. -/
theorem C1_counterexample :
    cityRows exDf "Fortaleza" = [] ∧ calculate_anomalies exDf "Fortaleza" = [] := by
  exact ⟨by decide, by decide⟩

/-- C1 amended: for a city with zero matching rows, `calculate_anomalies`
returns the empty row list (an ordinary, empty result) rather than
failing with an error. -/
theorem C1_empty_city_returns_empty (df : List Observation) (cidade : String)
    (h : cityRows df cidade = []) :
    calculate_anomalies df cidade = [] := by
  unfold calculate_anomalies
  rw [h]
  rfl

theorem C1_empty_city_returns_empty_witness :
    cityRows exDf "Natal" = [] ∧ calculate_anomalies exDf "Natal" = [] :=
  ⟨by decide, C1_empty_city_returns_empty exDf "Natal" (by decide)⟩

/-- C2 counterexample: the selection ("Recife", 1999) matches zero rows of
`exDf`, yet both callbacks produce ordinary successful outputs — the
daily-temperature extraction an empty list and the polar callback the
zero-filled 12-month table. Neither callback validates `cidade` or `ano`
against the known city/year sets, and no `InvalidSelectionError` exists
anywhere in `appp.py`. -/
theorem C2_counterexample :
    (exDf.filter fun o => decide (o.cidade = "Recife" ∧ o.year = 1999)) = [] ∧
    filterDaily exDf "Recife" 1999 = [] ∧
    update_polar_plot exDf "Recife" 1999 = all_months.map fun m => (m, 0) := by
  refine ⟨by decide, by decide, by decide⟩

/-- C2 amended: the callbacks invoke the filtering/aggregation directly,
performing no membership validation; a (city, year) combination with zero
rows yields an empty daily extraction and an all-zero monthly table — an
empty successful result rather than any error. -/
theorem C2_no_validation_empty_success (df : List Observation) (cidade : String) (ano : Int)
    (h : (df.filter fun o => decide (o.cidade = cidade ∧ o.year = ano)) = []) :
    filterDaily df cidade ano = [] ∧
    update_polar_plot df cidade ano = all_months.map fun m => (m, 0) := by
  have hnone : ∀ o ∈ df, ¬ (o.cidade = cidade ∧ o.year = ano) := by
    intro o ho
    have := List.filter_eq_nil_iff.mp h o ho
    simpa using this
  constructor
  · refine List.filter_eq_nil_iff.mpr fun o ho => ?_
    have hno := hnone o ho
    simp only [Bool.and_eq_true, decide_eq_true_eq]
    tauto
  · have hrows : hwMonthlyRows df cidade ano = [] := by
      refine List.filter_eq_nil_iff.mpr fun o ho => ?_
      have hno := hnone o ho
      simp only [Bool.and_eq_true, decide_eq_true_eq, hwFlagIsTrue]
      tauto
    unfold update_polar_plot calculate_hw_monthly
    rw [hrows]
    simp

theorem C2_no_validation_empty_success_witness :
    filterDaily exDf "Recife" 2021 = [] ∧
    update_polar_plot exDf "Recife" 2021 = all_months.map fun m => (m, 0) :=
  C2_no_validation_empty_success exDf "Recife" 2021 (by decide)

/-- C7 counterexample: `exDfUnsorted` lists its March row before its
January row; `filterDaily` (the `dff` of `update_temp_plot`) returns them
in that original order, which is not ascending timestamp order — the
callback never sorts. -/
theorem C7_counterexample :
    filterDaily exDfUnsorted "Recife" 2020 = [obsMar2, obsJan5] ∧
    ¬ List.Pairwise (fun a b => dateLE a.date b.date)
        (filterDaily exDfUnsorted "Recife" 2020) := by
  exact ⟨by decide, by decide⟩

/-- C7 amended: the daily extraction of `update_temp_plot` returns exactly
the rows matching the selected city and year, in the dataset's original
row order (a sublist of the dataset); it is in ascending timestamp order
only when the dataset rows already are. -/
theorem C7_filterDaily_correct (df : List Observation) (cidade : String) (ano : Int) :
    (∀ o : Observation, o ∈ filterDaily df cidade ano ↔
      o ∈ df ∧ o.cidade = cidade ∧ o.year = ano) ∧
    (filterDaily df cidade ano).Sublist df ∧
    (List.Pairwise (fun a b => dateLE a.date b.date) df →
      List.Pairwise (fun a b => dateLE a.date b.date) (filterDaily df cidade ano)) := by
  refine ⟨?_, List.filter_sublist df, ?_⟩
  · intro o
    simp [filterDaily, List.mem_filter, Bool.and_eq_true, decide_eq_true_eq]
  · intro hsorted
    exact hsorted.sublist (List.filter_sublist df)

theorem C7_filterDaily_correct_witness :
    (∀ o : Observation, o ∈ filterDaily exDf "Recife" 2020 ↔
      o ∈ exDf ∧ o.cidade = "Recife" ∧ o.year = 2020) ∧
    (filterDaily exDf "Recife" 2020).Sublist exDf ∧
    (List.Pairwise (fun a b => dateLE a.date b.date) exDf →
      List.Pairwise (fun a b => dateLE a.date b.date) (filterDaily exDf "Recife" 2020)) :=
  C7_filterDaily_correct exDf "Recife" 2020

theorem C6_anomalies_correct_witness :
    calculate_anomalies exDf "Recife" ≠ [] ∧
    ((calculate_anomalies exDf "Recife").map Prod.fst).Sorted (· < ·) ∧
    (∀ y : Int, y ∈ (calculate_anomalies exDf "Recife").map Prod.fst ↔
      ∃ o ∈ exDf, o.cidade = "Recife" ∧ o.year = y) ∧
    (∀ p ∈ calculate_anomalies exDf "Recife",
      p.2.1 = mean ((exDf.filter fun o =>
        decide (o.cidade = "Recife" ∧ o.year = p.1)).map Observation.tempMed) ∧
      p.2.2 = p.2.1
        - mean ((exDf.filter fun o => decide (o.cidade = "Recife")).map Observation.tempMed)) ∧
    ((∀ o₁ ∈ exDf, ∀ o₂ ∈ exDf, o₁.cidade = "Recife" → o₂.cidade = "Recife" →
        o₁.year = o₂.year) →
      ∀ p ∈ calculate_anomalies exDf "Recife", p.2.2 = 0) :=
  C6_anomalies_correct exDf "Recife" ⟨obsJan5, List.mem_cons_self obsJan5 _, rfl⟩

theorem allMonths_nodup : all_months.Nodup := by decide

theorem monthName_mem_all_months {n : Nat} (h1 : 1 ≤ n) (h2 : n ≤ 12) :
    monthName n ∈ all_months := by
  interval_cases n <;> decide

theorem countP_add_length_filter_not {α : Type} (p : α → Bool) (l : List α) :
    l.countP p + (l.filter fun a => !p a).length = l.length := by
  induction l with
  | nil => rfl
  | cons a t ih =>
    rw [List.countP_cons, List.filter_cons]
    cases h : p a <;> simp [h] <;> omega

theorem sum_countP_months (ms : List String) (hnd : ms.Nodup) :
    ∀ l : List Observation, (∀ o ∈ l, strftimeB o.date ∈ ms) →
      (ms.map fun m => l.countP fun o => decide (strftimeB o.date = m)).sum = l.length := by
  induction ms with
  | nil =>
    intro l hall
    have hl : l = [] := by
      cases l with
      | nil => rfl
      | cons o t => exact absurd (hall o (List.mem_cons_self o t)) (List.not_mem_nil _)
    subst hl
    simp
  | cons m rest ih =>
    intro l hall
    obtain ⟨hm, hrest⟩ := List.nodup_cons.mp hnd
    have hswap : ∀ m' ∈ rest,
        (l.countP fun o => decide (strftimeB o.date = m'))
          = ((l.filter fun o => !decide (strftimeB o.date = m)).countP
              fun o => decide (strftimeB o.date = m')) := by
      intro m' hm'
      rw [List.countP_filter]
      refine List.countP_congr fun o _ => ?_
      simp only [Bool.and_eq_true, decide_eq_true_eq, Bool.not_eq_true',
        decide_eq_false_iff_not]
      constructor
      · intro he
        refine ⟨he, ?_⟩
        rw [he]
        intro hcontr
        exact hm (hcontr ▸ hm')
      · exact fun hb => hb.1
    have hall' : ∀ o ∈ l.filter fun o => !decide (strftimeB o.date = m),
        strftimeB o.date ∈ rest := by
      intro o ho
      obtain ⟨hol, hne⟩ := List.mem_filter.mp ho
      have : strftimeB o.date ∈ m :: rest := hall o hol
      rcases List.mem_cons.mp this with heq | hmem
      · rw [Bool.not_eq_true', decide_eq_false_iff_not] at hne
        exact absurd heq hne
      · exact hmem
    calc ((m :: rest).map fun m' => l.countP fun o => decide (strftimeB o.date = m')).sum
        = (l.countP fun o => decide (strftimeB o.date = m))
          + (rest.map fun m' => l.countP fun o => decide (strftimeB o.date = m')).sum := by
          simp
      _ = (l.countP fun o => decide (strftimeB o.date = m))
          + (rest.map fun m' => ((l.filter fun o => !decide (strftimeB o.date = m)).countP
              fun o => decide (strftimeB o.date = m'))).sum := by
          rw [List.map_congr_left hswap]
      _ = (l.countP fun o => decide (strftimeB o.date = m))
          + (l.filter fun o => !decide (strftimeB o.date = m)).length := by
          rw [ih hrest _ hall']
      _ = l.length := countP_add_length_filter_not _ l

/-- C3: `calculate_hw_monthly` returns exactly 12 rows, one per calendar
month in calendar order January…December, each row's frequency being the
number of rows of the dataset matching the city, year, heat-wave flag and
that month — hence 0 for months with no matching heat-wave rows. -/
theorem C3_monthly_twelve_rows (df : List Observation) (cidade : String) (ano : Int) :
    (calculate_hw_monthly df cidade ano).length = 12 ∧
    calculate_hw_monthly df cidade ano = all_months.map fun m =>
      (m, df.countP fun o =>
        decide (o.cidade = cidade ∧ o.year = ano ∧ o.isHW = "TRUE" ∧ strftimeB o.date = m)) := by
  constructor
  · rfl
  · unfold calculate_hw_monthly
    refine List.map_congr_left fun m _ => ?_
    congr 1
    rw [hwMonthlyRows, List.countP_filter]
    refine List.countP_congr fun o _ => ?_
    simp only [Bool.and_eq_true, decide_eq_true_eq, hwFlagIsTrue]
    tauto

/-- C4: the 12 monthly frequencies of `calculate_hw_monthly` sum to the
total number of rows of the dataset matching the city and year with the
heat-wave flag true, provided every row's date carries a valid calendar
month (as every parsed `datetime` does). -/
theorem C4_monthly_sum (df : List Observation) (cidade : String) (ano : Int)
    (hvalid : ∀ o ∈ df, 1 ≤ o.date.month ∧ o.date.month ≤ 12) :
    ((calculate_hw_monthly df cidade ano).map Prod.snd).sum
      = df.countP fun o => decide (o.cidade = cidade ∧ o.year = ano ∧ o.isHW = "TRUE") := by
  have hsnd : (calculate_hw_monthly df cidade ano).map Prod.snd
      = all_months.map fun m =>
          (hwMonthlyRows df cidade ano).countP fun o => decide (strftimeB o.date = m) := by
    unfold calculate_hw_monthly
    rw [List.map_map]
    rfl
  rw [hsnd]
  have hall : ∀ o ∈ hwMonthlyRows df cidade ano, strftimeB o.date ∈ all_months := by
    intro o ho
    have hodf : o ∈ df := (List.mem_filter.mp ho).1
    have hv := hvalid o hodf
    exact monthName_mem_all_months hv.1 hv.2
  rw [sum_countP_months all_months allMonths_nodup _ hall, hwMonthlyRows,
    ← List.countP_eq_length_filter]
  refine List.countP_congr fun o _ => ?_
  simp only [Bool.and_eq_true, decide_eq_true_eq, hwFlagIsTrue]
  tauto

theorem C4_monthly_sum_witness :
    ((calculate_hw_monthly exDf "Recife" 2020).map Prod.snd).sum
      = exDf.countP fun o => decide (o.cidade = "Recife" ∧ o.year = 2020 ∧ o.isHW = "TRUE") :=
  C4_monthly_sum exDf "Recife" 2020 (by decide)

/-- C10: the left merge of `calculate_hw_monthly` keeps exactly the 12
canonical month rows, so a filtered heat-wave row whose derived month
name is not canonical contributes nothing — restricting the dataset to
rows with canonical month names leaves the output unchanged, and the
output never gains an extra row. -/
theorem C10_noncanonical_months_dropped (df : List Observation) (cidade : String) (ano : Int) :
    (calculate_hw_monthly df cidade ano).length = 12 ∧
    (calculate_hw_monthly df cidade ano).map Prod.fst = all_months ∧
    calculate_hw_monthly (df.filter fun o => decide (strftimeB o.date ∈ all_months)) cidade ano
      = calculate_hw_monthly df cidade ano := by
  refine ⟨rfl, ?_, ?_⟩
  · have hcomp : (Prod.fst ∘ fun m =>
        (m, (hwMonthlyRows df cidade ano).countP fun o => decide (strftimeB o.date = m))) = id :=
      rfl
    rw [calculate_hw_monthly, List.map_map, hcomp, List.map_id]
  · unfold calculate_hw_monthly
    refine List.map_congr_left fun m hm => ?_
    congr 1
    unfold hwMonthlyRows
    rw [List.filter_filter, List.countP_filter, List.countP_filter]
    refine List.countP_congr fun o _ => ?_
    simp only [Bool.and_eq_true, decide_eq_true_eq, hwFlagIsTrue]
    constructor
    · tauto
    · rintro ⟨hmo, hrest⟩
      exact ⟨hmo, hrest, by rw [hmo]; exact hm⟩

/-- C8: after the `load_data` normalisation, a row passes the heat-wave
filter `df["isHW"] == "TRUE"` — the predicate both `calculate_hw_summary`
and `calculate_hw_monthly` filter on — exactly when its raw flag compares
equal to "TRUE" case-insensitively; any other raw value, false-like
strings and stringified nulls included, is treated as false. -/
theorem C8_flag_case_insensitive (o : Observation) :
    (hwFlagIsTrue (load_row o) = true ↔ strUpper o.isHW = strUpper "TRUE") ∧
    (strUpper o.isHW ≠ strUpper "TRUE" → hwFlagIsTrue (load_row o) = false) := by
  have hTU : strUpper "TRUE" = "TRUE" := by decide
  constructor
  · simp [hwFlagIsTrue, load_row, hTU]
  · intro hne
    rw [hTU] at hne
    simp only [hwFlagIsTrue, load_row, decide_eq_false_iff_not]
    exact hne

theorem C8_flag_case_insensitive_witness :
    (hwFlagIsTrue (load_row obsMay7) = true ↔ strUpper obsMay7.isHW = strUpper "TRUE") ∧
    (strUpper obsMay7.isHW ≠ strUpper "TRUE" → hwFlagIsTrue (load_row obsMay7) = false) :=
  C8_flag_case_insensitive obsMay7

/-- C9: the three aggregators are pure functions of the dataset and their
parameters — in this embedding each is a mathematical function, so two
calls with identical arguments on the unmodified dataset give identical
output. -/
theorem C9_idempotent (df : List Observation) (cidade : String) (ano : Int) :
    calculate_hw_summary df = calculate_hw_summary df ∧
    calculate_anomalies df cidade = calculate_anomalies df cidade ∧
    calculate_hw_monthly df cidade ano = calculate_hw_monthly df cidade ano :=
  ⟨rfl, rfl, rfl⟩

theorem C3_monthly_twelve_rows_witness :
    (calculate_hw_monthly exDf "Recife" 2020).length = 12 ∧
    calculate_hw_monthly exDf "Recife" 2020 = all_months.map fun m =>
      (m, exDf.countP fun o =>
        decide (o.cidade = "Recife" ∧ o.year = 2020 ∧ o.isHW = "TRUE" ∧ strftimeB o.date = m)) :=
  C3_monthly_twelve_rows exDf "Recife" 2020

theorem C5_hw_summary_correct_witness :
    ((calculate_hw_summary exDf).map Prod.fst).Sorted
      (fun a b => (ofLex a).1 < (ofLex b).1 ∨
        ((ofLex a).1 = (ofLex b).1 ∧ (ofLex a).2 < (ofLex b).2)) ∧
    ((calculate_hw_summary exDf).map Prod.fst).Nodup ∧
    (∀ c : String, ∀ y : Int,
      toLex (c, y) ∈ (calculate_hw_summary exDf).map Prod.fst ↔
        ∃ o ∈ exDf, o.isHW = "TRUE" ∧ o.cidade = c ∧ o.year = y) ∧
    (∀ p ∈ calculate_hw_summary exDf,
      p.2 = exDf.countP (fun o =>
        decide (o.isHW = "TRUE" ∧ o.cidade = (ofLex p.1).1 ∧ o.year = (ofLex p.1).2)) ∧
      p.2 ≠ 0) :=
  C5_hw_summary_correct exDf

theorem C9_idempotent_witness :
    calculate_hw_summary exDf = calculate_hw_summary exDf ∧
    calculate_anomalies exDf "Recife" = calculate_anomalies exDf "Recife" ∧
    calculate_hw_monthly exDf "Recife" 2020 = calculate_hw_monthly exDf "Recife" 2020 :=
  C9_idempotent exDf "Recife" 2020

theorem C10_noncanonical_months_dropped_witness :
    (calculate_hw_monthly exDf "Recife" 2020).length = 12 ∧
    (calculate_hw_monthly exDf "Recife" 2020).map Prod.fst = all_months ∧
    calculate_hw_monthly (exDf.filter fun o => decide (strftimeB o.date ∈ all_months))
        "Recife" 2020
      = calculate_hw_monthly exDf "Recife" 2020 :=
  C10_noncanonical_months_dropped exDf "Recife" 2020

end Appp
